import Mathlib

/-!
Verification development for the riscv-vm core (src/riscv_core/riscv.c).

The C sources are shallowly embedded: `uint32_t` values are `Nat` kept below
2^32 by explicit truncation at every store, signed 32-bit views are `Int`
obtained through `sext32`, and the fallible parts of the interpreter
(`assert(!"unreachable")` default branches, plus the floating-point arithmetic
that lives in the host's `float` type and is outside this embedding) are
modelled with `Option`.

The repository's private header (riscv_private.h, with the field decoders
`dec_*`, the register/CSR/exception constants and `DEFAULT_STACK_ADDR`) is not
part of the provided sources; those few definitions are modelled from the
spec, each marked `Modelled from the spec:` in its doc comment.  Everything
else is translated directly from src/riscv_core/riscv.c.
-/

namespace RiscvVM

/-- Truncation to a `uint32_t` value. -/
def trunc32 (x : Nat) : Nat := x % 4294967296

/-- Truncation to a `uint16_t` value (callback parameter/return types). -/
def trunc16 (x : Nat) : Nat := x % 65536

/-- Truncation to a `uint8_t` value (callback parameter/return types). -/
def trunc8 (x : Nat) : Nat := x % 256

/-- The signed (two's-complement `int32_t`) reading of a 32-bit pattern. -/
def sext32 (x : Nat) : Int := if x < 2147483648 then (x : Int) else (x : Int) - 4294967296

/-- Store an `int32_t`-valued expression into a `uint32_t`: two's-complement
conversion, i.e. reduction mod 2^32. -/
def toU32 (x : Int) : Nat := (x % 4294967296).toNat

/-- `sign_extend_b` of riscv.c: `(int32_t)(int8_t)x` stored as `uint32_t`. -/
def sign_extend_b (x : Nat) : Nat :=
  toU32 (if x % 256 < 128 then ((x % 256 : Nat) : Int) else ((x % 256 : Nat) : Int) - 256)

/-- `sign_extend_h` of riscv.c: `(int32_t)(int16_t)x` stored as `uint32_t`. -/
def sign_extend_h (x : Nat) : Nat :=
  toU32 (if x % 65536 < 32768 then ((x % 65536 : Nat) : Int) else ((x % 65536 : Nat) : Int) - 65536)

/-- Modelled from the spec: `rv_reg_zero` of the missing riscv.h — index of the
architecturally-zero register `x0`. -/
def rv_reg_zero : Nat := 0

/-- Modelled from the spec: `rv_reg_sp` of the missing riscv.h — index of the
stack pointer register `x2` of the RISC-V ABI. -/
def rv_reg_sp : Nat := 2

/-- Modelled from the spec: `DEFAULT_STACK_ADDR` of the missing private
header — the implementation-defined default stack top written by `rv_reset`.
The spec fixes no particular value; a fixed constant stands in for it. -/
def DEFAULT_STACK_ADDR : Nat := 4294963200

/-- Modelled from the spec: `rv_except_none` of the missing riscv.h.  The run
loop's test `!rv->exception` forces the `none` member to be numerically 0. -/
def rv_except_none : Nat := 0

/-- Modelled from the spec: `rv_except_inst_misaligned` of the missing
riscv.h — the instruction-misaligned member of the exception enum; any fixed
non-zero value represents it. -/
def rv_except_inst_misaligned : Nat := 1

/-- Modelled from the spec: the CSR index constants of the missing riscv.h,
standard RISC-V CSR numbers: `cycle`. -/
def CSR_CYCLE : Nat := 3072

/-- Modelled from the spec: standard RISC-V CSR number of `cycleh`. -/
def CSR_CYCLEH : Nat := 3200

/-- Modelled from the spec: standard RISC-V CSR number of `mstatus`. -/
def CSR_MSTATUS : Nat := 768

/-- Modelled from the spec: standard RISC-V CSR number of `fcsr`. -/
def CSR_FCSR : Nat := 3

/-- The architectural state of one hart (`struct riscv_t` of riscv_private.h,
as described by the spec's data model): integer registers, floating registers
(kept as raw 32-bit patterns), program counter, CSR block and exception
latch.  The immutable host interface and the opaque user pointer live outside
this structure (`HostIO` below). -/
structure Hart where
  X : Nat → Nat
  F : Nat → Nat
  PC : Nat
  csr_cycle : Nat
  csr_mstatus : Nat
  csr_fcsr : Nat
  exception : Nat

/-- One host callback invocation, in program order.  Read callbacks carry the
address they were given; write callbacks also carry the datum after the
truncation imposed by the callback's C parameter type (`uint8_t`, `uint16_t`,
`uint32_t`). -/
inductive HostEvent where
  | read_b (addr : Nat)
  | read_s (addr : Nat)
  | read_w (addr : Nat)
  | write_b (addr data : Nat)
  | write_s (addr data : Nat)
  | write_w (addr data : Nat)
  | ecall (pc inst : Nat)
  | ebreak (pc inst : Nat)
  deriving DecidableEq, Repr

/-- The host I/O record (`struct riscv_io_t`): the read-side callbacks are
modelled as pure functions of the address; the write-side callbacks and the
environment hooks are recorded as `HostEvent`s by the handlers. -/
structure HostIO where
  mem_ifetch : Nat → Nat
  mem_read_w : Nat → Nat
  mem_read_s : Nat → Nat
  mem_read_b : Nat → Nat

/-- Result of one opcode handler: the mutated hart, the host callbacks it
performed, and the C handler's boolean return value. -/
structure HRes where
  rv : Hart
  evs : List HostEvent
  ret : Bool

/-- Modelled from the spec: `dec_rd` of the missing riscv_private.h —
bits [11:7]. -/
def dec_rd (inst : Nat) : Nat := (inst >>> 7) % 32

/-- Modelled from the spec: `dec_rs1` — bits [19:15]. -/
def dec_rs1 (inst : Nat) : Nat := (inst >>> 15) % 32

/-- Modelled from the spec: `dec_rs2` — bits [24:20]. -/
def dec_rs2 (inst : Nat) : Nat := (inst >>> 20) % 32

/-- Modelled from the spec: `dec_funct3` — bits [14:12]. -/
def dec_funct3 (inst : Nat) : Nat := (inst >>> 12) % 8

/-- Modelled from the spec: `dec_funct7` — bits [31:25]. -/
def dec_funct7 (inst : Nat) : Nat := (inst >>> 25) % 128

/-- Modelled from the spec: `dec_csr` — the 12-bit CSR index, bits [31:20]. -/
def dec_csr (inst : Nat) : Nat := (inst >>> 20) % 4096

/-- Modelled from the spec: `dec_r4type_rs3` — bits [31:27]. -/
def dec_r4type_rs3 (inst : Nat) : Nat := (inst >>> 27) % 32

/-- Modelled from the spec: `dec_r4type_fmt` — bits [26:25]. -/
def dec_r4type_fmt (inst : Nat) : Nat := (inst >>> 25) % 4

/-- Sign extension of a `w`-bit field to `int32_t`, used by the immediate
decoders. -/
def sextw (w : Nat) (v : Nat) : Int :=
  if v < 2 ^ (w - 1) then (v : Int) else (v : Int) - 2 ^ w

/-- Modelled from the spec: `dec_itype_imm` — bits [31:20], sign-extended. -/
def dec_itype_imm (inst : Nat) : Int := sextw 12 ((inst >>> 20) % 4096)

/-- Modelled from the spec: `dec_stype_imm` — imm[11:5] = bits [31:25],
imm[4:0] = bits [11:7], sign-extended. -/
def dec_stype_imm (inst : Nat) : Int :=
  sextw 12 (((inst >>> 25) % 128) * 32 + ((inst >>> 7) % 32))

/-- Modelled from the spec: `dec_btype_imm` — imm[12] = bit 31,
imm[11] = bit 7, imm[10:5] = bits [30:25], imm[4:1] = bits [11:8],
imm[0] = 0, sign-extended. -/
def dec_btype_imm (inst : Nat) : Int :=
  sextw 13 (((inst >>> 31) % 2) * 4096 + ((inst >>> 7) % 2) * 2048 +
            ((inst >>> 25) % 64) * 32 + ((inst >>> 8) % 16) * 2)

/-- Modelled from the spec: `dec_utype_imm` — `inst & 0xfffff000` as a
32-bit value. -/
def dec_utype_imm (inst : Nat) : Nat := ((inst >>> 12) % 1048576) * 4096

/-- Modelled from the spec: `dec_jtype_imm` — imm[20] = bit 31,
imm[19:12] = bits [19:12], imm[11] = bit 20, imm[10:1] = bits [30:21],
imm[0] = 0, sign-extended. -/
def dec_jtype_imm (inst : Nat) : Int :=
  sextw 21 (((inst >>> 31) % 2) * 1048576 + ((inst >>> 12) % 256) * 4096 +
            ((inst >>> 20) % 2) * 2048 + ((inst >>> 21) % 1024) * 2)

/-- Write one integer register: the stored expression undergoes the C
assignment conversion to `uint32_t`. -/
def updX (X : Nat → Nat) (rd v : Nat) : Nat → Nat :=
  fun i => if i = rd then trunc32 v else X i

/-- Write one floating register with a raw 32-bit pattern. -/
def updF (F : Nat → Nat) (rd v : Nat) : Nat → Nat :=
  fun i => if i = rd then trunc32 v else F i

/-- The `// enforce zero register` tail shared by the integer handlers:
`if (rd == rv_reg_zero) rv->X[rv_reg_zero] = 0;`. -/
def enforceZero (X : Nat → Nat) (rd : Nat) : Nat → Nat :=
  if rd = rv_reg_zero then updX X rv_reg_zero 0 else X

/-- The common handler tail `write X[rd]; PC += 4; enforce zero register;
return true` shared by op_load, op_op_imm, op_auipc, op_op, op_lui,
op_system and op_amo. -/
def wbX (rv : Hart) (rd v : Nat) (evs : List HostEvent) : HRes :=
  ⟨{ rv with X := enforceZero (updX rv.X rd v) rd, PC := trunc32 (rv.PC + 4) }, evs, true⟩

/-- `op_load` of riscv.c.  The read callbacks' `uint8_t`/`uint16_t`/`uint32_t`
return types appear as explicit truncations; the `assert(!"unreachable")`
default branch is `none`. -/
def op_load (io : HostIO) (rv : Hart) (inst : Nat) : Option HRes :=
  let imm := dec_itype_imm inst
  let rs1 := dec_rs1 inst
  let rd := dec_rd inst
  let addr := toU32 ((rv.X rs1 : Int) + imm)
  match dec_funct3 inst with
  | 0 => some (wbX rv rd (sign_extend_b (trunc8 (io.mem_read_b addr))) [.read_b addr])
  | 1 => some (wbX rv rd (sign_extend_h (trunc16 (io.mem_read_s addr))) [.read_s addr])
  | 2 => some (wbX rv rd (trunc32 (io.mem_read_w addr)) [.read_w addr])
  | 4 => some (wbX rv rd (trunc8 (io.mem_read_b addr)) [.read_b addr])
  | 5 => some (wbX rv rd (trunc16 (io.mem_read_s addr)) [.read_s addr])
  | _ => none

/-- `op_misc_mem` of riscv.c (Zifencei build): a UNIMPLEMENTED fence that just
steps over the instruction. -/
def op_misc_mem (rv : Hart) (_inst : Nat) : Option HRes :=
  some ⟨{ rv with PC := trunc32 (rv.PC + 4) }, [], true⟩

/-- `op_op_imm` of riscv.c.  `imm & 0x1f` is `(imm % 32).toNat`; the SRAI/SRLI
selector `imm & ~0x1f` is computed on the unsigned view of the immediate; the
arithmetic shift of a negative `int32_t` is floor division by the power of
two. -/
def op_op_imm (rv : Hart) (inst : Nat) : Option HRes :=
  let imm := dec_itype_imm inst
  let rd := dec_rd inst
  let rs1 := dec_rs1 inst
  match dec_funct3 inst with
  | 0 => some (wbX rv rd (toU32 (sext32 (rv.X rs1) + imm)) [])
  | 1 => some (wbX rv rd (rv.X rs1 <<< (imm % 32).toNat) [])
  | 2 => some (wbX rv rd (if sext32 (rv.X rs1) < imm then 1 else 0) [])
  | 3 => some (wbX rv rd (if rv.X rs1 < toU32 imm then 1 else 0) [])
  | 4 => some (wbX rv rd (rv.X rs1 ^^^ toU32 imm) [])
  | 5 =>
      if ¬ toU32 imm &&& 4294967264 = 0 then
        some (wbX rv rd (toU32 (Int.fdiv (sext32 (rv.X rs1)) (2 ^ (imm % 32).toNat))) [])
      else
        some (wbX rv rd (rv.X rs1 >>> (imm % 32).toNat) [])
  | 6 => some (wbX rv rd (rv.X rs1 ||| toU32 imm) [])
  | 7 => some (wbX rv rd (rv.X rs1 &&& toU32 imm) [])
  | _ => none

/-- `op_auipc` of riscv.c. -/
def op_auipc (rv : Hart) (inst : Nat) : Option HRes :=
  some (wbX rv (dec_rd inst) (trunc32 (dec_utype_imm inst + rv.PC)) [])

/-- `op_store` of riscv.c: one write callback, sized by funct3, with the datum
truncated by the callback's C parameter type; PC += 4; no register write. -/
def op_store (rv : Hart) (inst : Nat) : Option HRes :=
  let imm := dec_stype_imm inst
  let rs1 := dec_rs1 inst
  let rs2 := dec_rs2 inst
  let addr := toU32 ((rv.X rs1 : Int) + imm)
  let data := rv.X rs2
  match dec_funct3 inst with
  | 0 => some ⟨{ rv with PC := trunc32 (rv.PC + 4) }, [.write_b addr (trunc8 data)], true⟩
  | 1 => some ⟨{ rv with PC := trunc32 (rv.PC + 4) }, [.write_s addr (trunc16 data)], true⟩
  | 2 => some ⟨{ rv with PC := trunc32 (rv.PC + 4) }, [.write_w addr (trunc32 data)], true⟩
  | _ => none

/-- `op_op` of riscv.c, including the RV32M block.  Signed arithmetic is done
on the `sext32` views and stored back two's-complement; the 64-bit
intermediate products of MULH/MULHSU wrap mod 2^64 as in the C `uint64_t`
casts; DIV/REM use C's truncating `Int.tdiv`/`Int.tmod`. -/
def op_op (rv : Hart) (inst : Nat) : Option HRes :=
  let rd := dec_rd inst
  let rs1 := dec_rs1 inst
  let rs2 := dec_rs2 inst
  let a := rv.X rs1
  let b := rv.X rs2
  match dec_funct7 inst with
  | 0 =>
      match dec_funct3 inst with
      | 0 => some (wbX rv rd (toU32 (sext32 a + sext32 b)) [])
      | 1 => some (wbX rv rd (a <<< (b % 32)) [])
      | 2 => some (wbX rv rd (if sext32 a < sext32 b then 1 else 0) [])
      | 3 => some (wbX rv rd (if a < b then 1 else 0) [])
      | 4 => some (wbX rv rd (a ^^^ b) [])
      | 5 => some (wbX rv rd (a >>> (b % 32)) [])
      | 6 => some (wbX rv rd (a ||| b) [])
      | 7 => some (wbX rv rd (a &&& b) [])
      | _ => none
  | 1 =>
      match dec_funct3 inst with
      | 0 => some (wbX rv rd (toU32 (sext32 a * sext32 b)) [])
      | 1 => some (wbX rv rd (((sext32 a * sext32 b) % 18446744073709551616).toNat >>> 32) [])
      | 2 => some (wbX rv rd (((sext32 a * (b : Int)) % 18446744073709551616).toNat >>> 32) [])
      | 3 => some (wbX rv rd ((a * b) >>> 32) [])
      | 4 =>
          if sext32 b = 0 then some (wbX rv rd 4294967295 [])
          else if sext32 b = -1 ∧ a = 2147483648 then some (wbX rv rd a [])
          else some (wbX rv rd (toU32 (Int.tdiv (sext32 a) (sext32 b))) [])
      | 5 =>
          if b = 0 then some (wbX rv rd 4294967295 [])
          else some (wbX rv rd (a / b) [])
      | 6 =>
          if sext32 b = 0 then some (wbX rv rd (toU32 (sext32 a)) [])
          else if sext32 b = -1 ∧ a = 2147483648 then some (wbX rv rd 0 [])
          else some (wbX rv rd (toU32 (Int.tmod (sext32 a) (sext32 b))) [])
      | 7 =>
          if b = 0 then some (wbX rv rd a [])
          else some (wbX rv rd (a % b) [])
      | _ => none
  | 32 =>
      match dec_funct3 inst with
      | 0 => some (wbX rv rd (toU32 (sext32 a - sext32 b)) [])
      | 5 => some (wbX rv rd (toU32 (Int.fdiv (sext32 a) (2 ^ (b % 32)))) [])
      | _ => none
  | _ => none

/-- `op_lui` of riscv.c. -/
def op_lui (rv : Hart) (inst : Nat) : Option HRes :=
  some (wbX rv (dec_rd inst) (dec_utype_imm inst) [])

/-- The `taken` flag computed by op_branch's funct3 switch (BEQ, BNE, BLT,
BGE, BLTU, BGEU); the asserting default is `none`. -/
def branch_taken (rv : Hart) (inst : Nat) : Option Bool :=
  let rs1 := dec_rs1 inst
  let rs2 := dec_rs2 inst
  match dec_funct3 inst with
  | 0 => some (decide (rv.X rs1 = rv.X rs2))
  | 1 => some (decide (¬ rv.X rs1 = rv.X rs2))
  | 4 => some (decide (sext32 (rv.X rs1) < sext32 (rv.X rs2)))
  | 5 => some (decide (sext32 (rv.X rs2) ≤ sext32 (rv.X rs1)))
  | 6 => some (decide (rv.X rs1 < rv.X rs2))
  | 7 => some (decide (rv.X rs2 ≤ rv.X rs1))
  | _ => none

/-- `op_branch` of riscv.c: taken ⇒ `PC += imm` with a misalignment check on
the new PC; not taken ⇒ `PC += 4`; either way the handler returns false. -/
def op_branch (rv : Hart) (inst : Nat) : Option HRes :=
  let imm := dec_btype_imm inst
  match branch_taken rv inst with
  | none => none
  | some true =>
      let pc1 := toU32 ((rv.PC : Int) + imm)
      some ⟨{ rv with
              PC := pc1
              exception := if ¬ pc1 &&& 3 = 0 then rv_except_inst_misaligned else rv.exception },
            [], false⟩
  | some false =>
      some ⟨{ rv with PC := trunc32 (rv.PC + 4) }, [], false⟩

/-- `op_jalr` of riscv.c: the target `(X[rs1] + imm) & ~1` is computed before
the link register is written; then the misalignment check runs on the new
PC. -/
def op_jalr (rv : Hart) (inst : Nat) : Option HRes :=
  let rd := dec_rd inst
  let rs1 := dec_rs1 inst
  let imm := dec_itype_imm inst
  let ra := trunc32 (rv.PC + 4)
  let pc1 := toU32 ((rv.X rs1 : Int) + imm) &&& 4294967294
  some ⟨{ rv with
          PC := pc1
          X := if ¬ rd = rv_reg_zero then updX rv.X rd ra else rv.X
          exception := if ¬ pc1 &&& 3 = 0 then rv_except_inst_misaligned else rv.exception },
        [], false⟩

/-- `op_jal` of riscv.c. -/
def op_jal (rv : Hart) (inst : Nat) : Option HRes :=
  let rd := dec_rd inst
  let rel := dec_jtype_imm inst
  let ra := trunc32 (rv.PC + 4)
  let pc1 := toU32 ((rv.PC : Int) + rel)
  some ⟨{ rv with
          PC := pc1
          X := if ¬ rd = rv_reg_zero then updX rv.X rd ra else rv.X
          exception := if ¬ pc1 &&& 3 = 0 then rv_except_inst_misaligned else rv.exception },
        [], false⟩

/-- `csr_is_writable` of riscv.c: only `mstatus`. -/
def csr_is_writable (csr : Nat) : Bool := csr == CSR_MSTATUS

/-- The read through `csr_get_ptr` of riscv.c: `cycle`/`cycleh` are the halves
of the 64-bit counter (little-endian host), `mstatus` and `fcsr` are plain;
an unknown index is a NULL pointer, `none`. -/
def csr_get (rv : Hart) (csr : Nat) : Option Nat :=
  if csr = CSR_CYCLE then some (rv.csr_cycle % 4294967296)
  else if csr = CSR_CYCLEH then some (rv.csr_cycle / 4294967296)
  else if csr = CSR_MSTATUS then some rv.csr_mstatus
  else if csr = CSR_FCSR then some rv.csr_fcsr
  else none

/-- The write through `csr_get_ptr`, gated by `csr_is_writable`: only
`mstatus` is ever written. -/
def csr_set (rv : Hart) (csr v : Nat) : Hart :=
  if csr = CSR_MSTATUS then { rv with csr_mstatus := trunc32 v } else rv

/-- `csr_csrrw` of riscv.c: returns the (possibly) updated hart and the old
value. -/
def csr_csrrw (rv : Hart) (csr val : Nat) : Hart × Nat :=
  match csr_get rv csr with
  | none => (rv, 0)
  | some out => (if csr_is_writable csr then csr_set rv csr val else rv, out)

/-- `csr_csrrs` of riscv.c: atomic read and set bits. -/
def csr_csrrs (rv : Hart) (csr val : Nat) : Hart × Nat :=
  match csr_get rv csr with
  | none => (rv, 0)
  | some out => (if csr_is_writable csr then csr_set rv csr (out ||| val) else rv, out)

/-- `csr_csrrc` of riscv.c: atomic read and clear bits (`*c &= ~val`). -/
def csr_csrrc (rv : Hart) (csr val : Nat) : Hart × Nat :=
  match csr_get rv csr with
  | none => (rv, 0)
  | some out => (if csr_is_writable csr then csr_set rv csr (out &&& (4294967295 ^^^ val)) else rv, out)

/-- `op_system` of riscv.c.  ECALL/EBREAK are recorded as host events; the
CSR instructions pass the raw `rs1` index as the operand exactly as the
source does; the immediate CSR forms (funct3 5,6,7) are accepted TODOs with
no effect. -/
def op_system (rv : Hart) (inst : Nat) : Option HRes :=
  let imm := dec_itype_imm inst
  let csr := dec_csr inst
  let rs1 := dec_rs1 inst
  let rd := dec_rd inst
  match dec_funct3 inst with
  | 0 =>
      match imm with
      | 0 => some ⟨{ rv with X := enforceZero rv.X rd, PC := trunc32 (rv.PC + 4) },
                   [.ecall rv.PC inst], true⟩
      | 1 => some ⟨{ rv with X := enforceZero rv.X rd, PC := trunc32 (rv.PC + 4) },
                   [.ebreak rv.PC inst], true⟩
      | _ => none
  | 1 => some (wbX (csr_csrrw rv csr rs1).1 rd (csr_csrrw rv csr rs1).2 [])
  | 2 => some (wbX (csr_csrrs rv csr rs1).1 rd (csr_csrrs rv csr rs1).2 [])
  | 3 => some (wbX (csr_csrrc rv csr rs1).1 rd (csr_csrrc rv csr rs1).2 [])
  | 5 => some ⟨{ rv with X := enforceZero rv.X rd, PC := trunc32 (rv.PC + 4) }, [], true⟩
  | 6 => some ⟨{ rv with X := enforceZero rv.X rd, PC := trunc32 (rv.PC + 4) }, [], true⟩
  | 7 => some ⟨{ rv with X := enforceZero rv.X rd, PC := trunc32 (rv.PC + 4) }, [], true⟩
  | _ => none

/-- `op_amo` of riscv.c, translated exactly as written: LR.W and SC.W address
memory at `X[rs1]` through the word callbacks, while every AMO case passes
the raw register INDEX `rs1` as the address to `mem_read_w` and writes the
result back through the half-word callback `mem_write_s` (whose `uint16_t`
parameter truncates the datum). -/
def op_amo (io : HostIO) (rv : Hart) (inst : Nat) : Option HRes :=
  let rd := dec_rd inst
  let rs1 := dec_rs1 inst
  let rs2 := dec_rs2 inst
  match (dec_funct7 inst >>> 2) % 32 with
  | 2 => some (wbX rv rd (trunc32 (io.mem_read_w (rv.X rs1))) [.read_w (rv.X rs1)])
  | 3 => some (wbX rv rd 0 [.write_w (rv.X rs1) (trunc32 (rv.X rs2))])
  | 1 =>
      let X1 := updX rv.X rd (trunc32 (io.mem_read_w rs1))
      some ⟨{ rv with X := enforceZero X1 rd, PC := trunc32 (rv.PC + 4) },
            [.read_w rs1, .write_s rs1 (trunc16 (X1 rs2))], true⟩
  | 0 =>
      let X1 := updX rv.X rd (trunc32 (io.mem_read_w rs1))
      let res := toU32 (sext32 (X1 rd) + sext32 (X1 rs2))
      some ⟨{ rv with X := enforceZero X1 rd, PC := trunc32 (rv.PC + 4) },
            [.read_w rs1, .write_s rs1 (trunc16 res)], true⟩
  | 4 =>
      let X1 := updX rv.X rd (trunc32 (io.mem_read_w rs1))
      let res := X1 rd ^^^ X1 rs2
      some ⟨{ rv with X := enforceZero X1 rd, PC := trunc32 (rv.PC + 4) },
            [.read_w rs1, .write_s rs1 (trunc16 res)], true⟩
  | 12 =>
      let X1 := updX rv.X rd (trunc32 (io.mem_read_w rs1))
      let res := X1 rd &&& X1 rs2
      some ⟨{ rv with X := enforceZero X1 rd, PC := trunc32 (rv.PC + 4) },
            [.read_w rs1, .write_s rs1 (trunc16 res)], true⟩
  | 8 =>
      let X1 := updX rv.X rd (trunc32 (io.mem_read_w rs1))
      let res := X1 rd ||| X1 rs2
      some ⟨{ rv with X := enforceZero X1 rd, PC := trunc32 (rv.PC + 4) },
            [.read_w rs1, .write_s rs1 (trunc16 res)], true⟩
  | 16 =>
      let X1 := updX rv.X rd (trunc32 (io.mem_read_w rs1))
      let res := toU32 (if sext32 (X1 rd) < sext32 (X1 rs2) then sext32 (X1 rd) else sext32 (X1 rs2))
      some ⟨{ rv with X := enforceZero X1 rd, PC := trunc32 (rv.PC + 4) },
            [.read_w rs1, .write_s rs1 (trunc16 res)], true⟩
  | 20 =>
      let X1 := updX rv.X rd (trunc32 (io.mem_read_w rs1))
      let res := toU32 (if sext32 (X1 rs2) < sext32 (X1 rd) then sext32 (X1 rd) else sext32 (X1 rs2))
      some ⟨{ rv with X := enforceZero X1 rd, PC := trunc32 (rv.PC + 4) },
            [.read_w rs1, .write_s rs1 (trunc16 res)], true⟩
  | 24 =>
      let X1 := updX rv.X rd (trunc32 (io.mem_read_w rs1))
      let res := if X1 rd < X1 rs2 then X1 rd else X1 rs2
      some ⟨{ rv with X := enforceZero X1 rd, PC := trunc32 (rv.PC + 4) },
            [.read_w rs1, .write_s rs1 (trunc16 res)], true⟩
  | 28 =>
      let X1 := updX rv.X rd (trunc32 (io.mem_read_w rs1))
      let res := if X1 rs2 < X1 rd then X1 rd else X1 rs2
      some ⟨{ rv with X := enforceZero X1 rd, PC := trunc32 (rv.PC + 4) },
            [.read_w rs1, .write_s rs1 (trunc16 res)], true⟩
  | _ => none

/-- `FMASK_SIGN` of riscv.c. -/
def FMASK_SIGN : Nat := 2147483648

/-- `FMASK_EXPN` of riscv.c. -/
def FMASK_EXPN : Nat := 2139095040

/-- `FMASK_FRAC` of riscv.c. -/
def FMASK_FRAC : Nat := 8388607

/-- `calc_fclass` of riscv.c, bit for bit: note the source's normal-number
guards compare `expn` against `0x78000000`, not against `FMASK_EXPN`. -/
def calc_fclass (f : Nat) : Nat :=
  let sign := f &&& FMASK_SIGN
  let expn := f &&& FMASK_EXPN
  let frac := f &&& FMASK_FRAC
  (if f = 4286578688 then 1 else 0) |||
  (if ¬ expn = 0 ∧ expn < 2013265920 ∧ ¬ sign = 0 then 2 else 0) |||
  (if expn = 0 ∧ ¬ frac = 0 ∧ ¬ sign = 0 then 4 else 0) |||
  (if f = 2147483648 then 8 else 0) |||
  (if f = 0 then 16 else 0) |||
  (if expn = 0 ∧ ¬ frac = 0 ∧ sign = 0 then 32 else 0) |||
  (if ¬ expn = 0 ∧ expn < 2013265920 ∧ sign = 0 then 64 else 0) |||
  (if f = 2139095040 then 128 else 0) |||
  (if expn = FMASK_EXPN ∧ frac ≤ 2047 ∧ ¬ frac = 0 then 256 else 0) |||
  (if expn = FMASK_EXPN ∧ 2048 ≤ frac then 512 else 0)

/-- `op_load_fp` of riscv.c: word load into the raw bits of `F[rd]`. -/
def op_load_fp (io : HostIO) (rv : Hart) (inst : Nat) : Option HRes :=
  let rd := dec_rd inst
  let rs1 := dec_rs1 inst
  let imm := dec_itype_imm inst
  let addr := toU32 ((rv.X rs1 : Int) + imm)
  some ⟨{ rv with F := updF rv.F rd (trunc32 (io.mem_read_w addr)), PC := trunc32 (rv.PC + 4) },
        [.read_w addr], true⟩

/-- `op_store_fp` of riscv.c: word store of the raw bits of `F[rs2]`. -/
def op_store_fp (rv : Hart) (inst : Nat) : Option HRes :=
  let rs1 := dec_rs1 inst
  let rs2 := dec_rs2 inst
  let imm := dec_stype_imm inst
  let addr := toU32 ((rv.X rs1 : Int) + imm)
  some ⟨{ rv with PC := trunc32 (rv.PC + 4) }, [.write_w addr (trunc32 (rv.F rs2))], true⟩

/-- `op_fp` of riscv.c, restricted to its bit-exact cases (sign injection,
FMV.X.W, FCLASS.S, FMV.W.X).  The cases that go through the host's `float`
arithmetic (FADD, FSUB, FMUL, FDIV, FSQRT, FMIN, FMAX, the FCVT family and
FEQ/FLT/FLE) are outside this embedding and map to `none`, as do the
asserting unreachable funct7 values.  Note: unlike every other handler that
writes an integer register, the source's op_fp has NO zero-register
enforcement tail. -/
def op_fp (rv : Hart) (inst : Nat) : Option HRes :=
  let rd := dec_rd inst
  let rs1 := dec_rs1 inst
  let rs2 := dec_rs2 inst
  match dec_funct7 inst with
  | 16 =>
      let f1 := rv.F rs1
      let f2 := rv.F rs2
      match dec_funct3 inst with
      | 0 => some ⟨{ rv with
                     F := updF rv.F rd ((f1 &&& 2147483647) ||| (f2 &&& FMASK_SIGN))
                     PC := trunc32 (rv.PC + 4) }, [], true⟩
      | 1 => some ⟨{ rv with
                     F := updF rv.F rd ((f1 &&& 2147483647) ||| ((4294967295 ^^^ f2) &&& FMASK_SIGN))
                     PC := trunc32 (rv.PC + 4) }, [], true⟩
      | 2 => some ⟨{ rv with
                     F := updF rv.F rd (f1 ^^^ (f2 &&& FMASK_SIGN))
                     PC := trunc32 (rv.PC + 4) }, [], true⟩
      | _ => none
  | 112 =>
      match dec_funct3 inst with
      | 0 => some ⟨{ rv with X := updX rv.X rd (rv.F rs1), PC := trunc32 (rv.PC + 4) }, [], true⟩
      | 1 => some ⟨{ rv with
                     X := updX rv.X rd (calc_fclass (trunc32 (rv.F rs1)))
                     PC := trunc32 (rv.PC + 4) }, [], true⟩
      | _ => none
  | 120 => some ⟨{ rv with F := updF rv.F rd (rv.X rs1), PC := trunc32 (rv.PC + 4) }, [], true⟩
  | _ => none

/-- The fetch-and-dispatch body of rv_step's loop: one `mem_ifetch`, index by
bits [6:2], run the handler.  NULL table slots (the assert) map to `none`;
so do the four FMADD-family slots (16-19), whose handlers are host `float`
arithmetic outside this embedding. -/
def rv_exec1 (io : HostIO) (rv : Hart) : Option HRes :=
  let inst := trunc32 (io.mem_ifetch rv.PC)
  match (inst >>> 2) % 32 with
  | 0 => op_load io rv inst
  | 1 => op_load_fp io rv inst
  | 3 => op_misc_mem rv inst
  | 4 => op_op_imm rv inst
  | 5 => op_auipc rv inst
  | 8 => op_store rv inst
  | 9 => op_store_fp rv inst
  | 11 => op_amo io rv inst
  | 12 => op_op rv inst
  | 13 => op_lui rv inst
  | 20 => op_fp rv inst
  | 24 => op_branch rv inst
  | 25 => op_jalr rv inst
  | 27 => op_jal rv inst
  | 28 => op_system rv inst
  | _ => none

/-- The interpreter run loop of `rv_step` (non-JIT build): while the cycle
counter is below the target and the exception latch is clear, fetch-dispatch
one instruction; a handler returning false `break`s out of the loop, a
handler returning true is followed by `rv->csr_cycle++`.

The source increments the counter of the post-handler state; no handler ever
writes `csr_cycle` (theorem `rv_exec1_csr_cycle` below proves the handlers
leave it unchanged), so the increment is written here on the pre-handler
value, which also makes the termination measure `target - csr_cycle`
evident.  The returned flag records how the loop was left: `true` for the
`break` on a false-returning handler, `false` for the loop condition. -/
def rv_step_go (io : HostIO) (target : Nat) (rv : Hart) : Option (Hart × Bool) :=
  if hg : rv.csr_cycle < target ∧ rv.exception = rv_except_none then
    match rv_exec1 io rv with
    | none => none
    | some res =>
        if res.ret then rv_step_go io target { res.rv with csr_cycle := rv.csr_cycle + 1 }
        else some (res.rv, true)
  else some (rv, false)
termination_by target - rv.csr_cycle
decreasing_by simp; omega

/-- `rv_step(rv, cycles)` of riscv.c (non-JIT build): the target is
`csr_cycle + cycles` in 64-bit arithmetic; the exit flag of the loop is not
observable in C and is dropped. -/
def rv_step (io : HostIO) (rv : Hart) (cycles : Nat) : Option Hart :=
  (rv_step_go io ((rv.csr_cycle + cycles) % 18446744073709551616) rv).map Prod.fst

/-- `rv_reset` of riscv.c: zero the register file, set PC, set `X[sp]` to the
default stack top, clear the exception latch, the CSRs and the floating
registers. -/
def rv_reset (_rv : Hart) (pc : Nat) : Hart :=
  { X := updX (fun _ => 0) rv_reg_sp DEFAULT_STACK_ADDR
    F := fun _ => 0
    PC := trunc32 pc
    csr_cycle := 0
    csr_mstatus := 0
    csr_fcsr := 0
    exception := rv_except_none }

/-- A blank hart used by the concrete scenarios below. -/
def hart0 : Hart := ⟨fun _ => 0, fun _ => 0, 0, 0, 0, 0, 0⟩

/-- A hart whose `f1` holds the bit pattern 0x3F800000 (the float 1.0). -/
def hartF : Hart := { hart0 with F := fun i => if i = 1 then 1065353216 else 0 }

/-- A hart with `X[5] = 0x100` (an AMO base address) and `X[6] = 1`. -/
def hartAMO : Hart := { hart0 with X := fun i => if i = 5 then 256 else if i = 6 then 1 else 0 }

/-- A hart with `X[1] = 42` and `X[2] = 0` (a divide-by-zero operand pair). -/
def hartDIV : Hart := { hart0 with X := fun i => if i = 1 then 42 else 0 }

/-- A hart with `X[1] = 0x100` (a JALR base). -/
def hartJ : Hart := { hart0 with X := fun i => if i = 1 then 256 else 0 }

/-- An instruction stream that is the taken branch `BEQ x0, x0, +8`
(encoding 0x463) at every address. -/
def ioBEQ : HostIO := ⟨fun _ => 1123, fun _ => 0, fun _ => 0, fun _ => 0⟩

/-- An instruction stream that is `ADDI x0, x0, 0` (the canonical NOP,
encoding 0x13) at every address. -/
def ioNOP : HostIO := ⟨fun _ => 19, fun _ => 0, fun _ => 0, fun _ => 0⟩

/-- A host whose word-read callback returns `1000 + addr`, so the address a
read was given is visible in the value it produced. -/
def ioADDR : HostIO := ⟨fun _ => 0, fun a => 1000 + a, fun _ => 0, fun _ => 0⟩

/-- The magnitude of C's truncating remainder is the `Nat` remainder of the
magnitudes. -/
theorem natAbs_tmod (a b : Int) : (a.tmod b).natAbs = a.natAbs % b.natAbs := by
  cases a <;> cases b <;> simp [Int.tmod, Int.natAbs_neg] <;> rfl

/-- C's truncating remainder of a nonpositive dividend is nonpositive. -/
theorem tmod_nonpos_of_nonpos (a b : Int) (h : a ≤ 0) : a.tmod b ≤ 0 := by
  cases a with
  | ofNat m =>
      have hm : m = 0 := by simp [Int.ofNat_eq_natCast] at h; omega
      subst hm
      cases b <;> simp [Int.tmod]
  | negSucc m =>
      cases b with
      | ofNat n =>
          have h2 : Int.tmod (Int.negSucc m) (Int.ofNat n) = -Int.ofNat (m.succ % n) := rfl
          have h3 : (0:Int) ≤ Int.ofNat (m.succ % n) := Int.ofNat_nonneg _
          omega
      | negSucc n =>
          have h2 : Int.tmod (Int.negSucc m) (Int.negSucc n) = -Int.ofNat (m.succ % n.succ) := rfl
          have h3 : (0:Int) ≤ Int.ofNat (m.succ % n.succ) := Int.ofNat_nonneg _
          omega

/-- The signed view of a 32-bit pattern lies in the `int32_t` range. -/
theorem sext32_bounds (a : Nat) (h : a < 4294967296) :
    -2147483648 ≤ sext32 a ∧ sext32 a < 2147483648 := by
  unfold sext32; split <;> omega

/-- Round trip: storing an in-range `int32_t` and reading it back signed is
the identity. -/
theorem sext32_toU32 (q : Int) (h1 : -2147483648 ≤ q) (h2 : q < 2147483648) :
    sext32 (toU32 q) = q := by
  unfold sext32 toU32; split <;> omega

/-- Round trip: storing the signed view of a 32-bit pattern reproduces the
pattern. -/
theorem toU32_sext32 (a : Nat) (h : a < 4294967296) : toU32 (sext32 a) = a := by
  unfold sext32 toU32; split <;> omega

/-- The signed view is zero exactly on the zero pattern. -/
theorem sext32_eq_zero (a : Nat) (h : a < 4294967296) : sext32 a = 0 ↔ a = 0 := by
  unfold sext32; split <;> omega

/-- The signed view is -1 exactly on the all-ones pattern. -/
theorem sext32_eq_neg_one (a : Nat) (h : a < 4294967296) : sext32 a = -1 ↔ a = 4294967295 := by
  unfold sext32; split <;> omega

/-- The common writeback tail does not touch the cycle counter. -/
theorem wbX_cycle (rv : Hart) (rd v : Nat) (evs : List HostEvent) :
    (wbX rv rd v evs).rv.csr_cycle = rv.csr_cycle := rfl

/-- op_load leaves `csr_cycle` unchanged. -/
theorem op_load_cycle (io : HostIO) (rv : Hart) (inst : Nat) (res : HRes)
    (h : op_load io rv inst = some res) : res.rv.csr_cycle = rv.csr_cycle := by
  unfold op_load at h
  split at h <;> first
    | exact Option.noConfusion h
    | (injection h with h; subst h; rfl)

/-- op_misc_mem leaves `csr_cycle` unchanged. -/
theorem op_misc_mem_cycle (rv : Hart) (inst : Nat) (res : HRes)
    (h : op_misc_mem rv inst = some res) : res.rv.csr_cycle = rv.csr_cycle := by
  unfold op_misc_mem at h; injection h with h; subst h; rfl

/-- op_op_imm leaves `csr_cycle` unchanged. -/
theorem op_op_imm_cycle (rv : Hart) (inst : Nat) (res : HRes)
    (h : op_op_imm rv inst = some res) : res.rv.csr_cycle = rv.csr_cycle := by
  unfold op_op_imm at h
  split at h <;> (try (dsimp only at h; split at h)) <;> first
    | exact Option.noConfusion h
    | (injection h with h; subst h; rfl)

/-- op_auipc leaves `csr_cycle` unchanged. -/
theorem op_auipc_cycle (rv : Hart) (inst : Nat) (res : HRes)
    (h : op_auipc rv inst = some res) : res.rv.csr_cycle = rv.csr_cycle := by
  unfold op_auipc at h; injection h with h; subst h; rfl

/-- op_store leaves `csr_cycle` unchanged. -/
theorem op_store_cycle (rv : Hart) (inst : Nat) (res : HRes)
    (h : op_store rv inst = some res) : res.rv.csr_cycle = rv.csr_cycle := by
  unfold op_store at h
  split at h <;> first
    | exact Option.noConfusion h
    | (injection h with h; subst h; rfl)

/-- op_op leaves `csr_cycle` unchanged. -/
theorem op_op_cycle (rv : Hart) (inst : Nat) (res : HRes)
    (h : op_op rv inst = some res) : res.rv.csr_cycle = rv.csr_cycle := by
  unfold op_op at h
  split at h <;> (try split at h) <;> (try (dsimp only at h; split at h)) <;>
    (try split at h) <;> first
    | exact Option.noConfusion h
    | (injection h with h; subst h; rfl)

/-- op_lui leaves `csr_cycle` unchanged. -/
theorem op_lui_cycle (rv : Hart) (inst : Nat) (res : HRes)
    (h : op_lui rv inst = some res) : res.rv.csr_cycle = rv.csr_cycle := by
  unfold op_lui at h; injection h with h; subst h; rfl

/-- op_branch leaves `csr_cycle` unchanged. -/
theorem op_branch_cycle (rv : Hart) (inst : Nat) (res : HRes)
    (h : op_branch rv inst = some res) : res.rv.csr_cycle = rv.csr_cycle := by
  unfold op_branch at h
  split at h <;> first
    | exact Option.noConfusion h
    | (injection h with h; subst h; rfl)

/-- op_jalr leaves `csr_cycle` unchanged. -/
theorem op_jalr_cycle (rv : Hart) (inst : Nat) (res : HRes)
    (h : op_jalr rv inst = some res) : res.rv.csr_cycle = rv.csr_cycle := by
  unfold op_jalr at h; injection h with h; subst h; rfl

/-- op_jal leaves `csr_cycle` unchanged. -/
theorem op_jal_cycle (rv : Hart) (inst : Nat) (res : HRes)
    (h : op_jal rv inst = some res) : res.rv.csr_cycle = rv.csr_cycle := by
  unfold op_jal at h; injection h with h; subst h; rfl

/-- The CSR write gate only ever lets `mstatus` through, so `csr_cycle` is
untouched by a CSR write. -/
theorem csr_set_cycle (rv : Hart) (csr v : Nat) : (csr_set rv csr v).csr_cycle = rv.csr_cycle := by
  unfold csr_set; split <;> rfl

/-- csr_csrrw leaves `csr_cycle` unchanged. -/
theorem csr_csrrw_cycle (rv : Hart) (csr val : Nat) :
    (csr_csrrw rv csr val).1.csr_cycle = rv.csr_cycle := by
  unfold csr_csrrw; split <;> (try split) <;> simp [csr_set_cycle]

/-- csr_csrrs leaves `csr_cycle` unchanged. -/
theorem csr_csrrs_cycle (rv : Hart) (csr val : Nat) :
    (csr_csrrs rv csr val).1.csr_cycle = rv.csr_cycle := by
  unfold csr_csrrs; split <;> (try split) <;> simp [csr_set_cycle]

/-- csr_csrrc leaves `csr_cycle` unchanged. -/
theorem csr_csrrc_cycle (rv : Hart) (csr val : Nat) :
    (csr_csrrc rv csr val).1.csr_cycle = rv.csr_cycle := by
  unfold csr_csrrc; split <;> (try split) <;> simp [csr_set_cycle]

/-- op_system leaves `csr_cycle` unchanged (CSR writes to the cycle counter
are blocked by the write gate). -/
theorem op_system_cycle (rv : Hart) (inst : Nat) (res : HRes)
    (h : op_system rv inst = some res) : res.rv.csr_cycle = rv.csr_cycle := by
  unfold op_system at h
  split at h <;> (try (dsimp only at h; split at h)) <;> first
    | exact Option.noConfusion h
    | (injection h with h; subst h
       first
         | rfl
         | simp [wbX, csr_csrrw_cycle, csr_csrrs_cycle, csr_csrrc_cycle])

/-- op_amo leaves `csr_cycle` unchanged. -/
theorem op_amo_cycle (io : HostIO) (rv : Hart) (inst : Nat) (res : HRes)
    (h : op_amo io rv inst = some res) : res.rv.csr_cycle = rv.csr_cycle := by
  unfold op_amo at h
  split at h <;> first
    | exact Option.noConfusion h
    | (injection h with h; subst h; rfl)

/-- op_load_fp leaves `csr_cycle` unchanged. -/
theorem op_load_fp_cycle (io : HostIO) (rv : Hart) (inst : Nat) (res : HRes)
    (h : op_load_fp io rv inst = some res) : res.rv.csr_cycle = rv.csr_cycle := by
  unfold op_load_fp at h; injection h with h; subst h; rfl

/-- op_store_fp leaves `csr_cycle` unchanged. -/
theorem op_store_fp_cycle (rv : Hart) (inst : Nat) (res : HRes)
    (h : op_store_fp rv inst = some res) : res.rv.csr_cycle = rv.csr_cycle := by
  unfold op_store_fp at h; injection h with h; subst h; rfl

/-- op_fp leaves `csr_cycle` unchanged. -/
theorem op_fp_cycle (rv : Hart) (inst : Nat) (res : HRes)
    (h : op_fp rv inst = some res) : res.rv.csr_cycle = rv.csr_cycle := by
  unfold op_fp at h
  split at h <;> (try split at h) <;> first
    | exact Option.noConfusion h
    | (injection h with h; subst h; rfl)

/-- No handler writes the cycle counter: one fetch-dispatch step preserves
`csr_cycle`.  (The only CSR writes the gate admits go to `mstatus`.) -/
theorem rv_exec1_csr_cycle (io : HostIO) (rv : Hart) (res : HRes)
    (h : rv_exec1 io rv = some res) : res.rv.csr_cycle = rv.csr_cycle := by
  unfold rv_exec1 at h
  dsimp only at h
  split at h
  case _ => exact op_load_cycle io rv _ res h
  case _ => exact op_load_fp_cycle io rv _ res h
  case _ => exact op_misc_mem_cycle rv _ res h
  case _ => exact op_op_imm_cycle rv _ res h
  case _ => exact op_auipc_cycle rv _ res h
  case _ => exact op_store_cycle rv _ res h
  case _ => exact op_store_fp_cycle rv _ res h
  case _ => exact op_amo_cycle io rv _ res h
  case _ => exact op_op_cycle rv _ res h
  case _ => exact op_lui_cycle rv _ res h
  case _ => exact op_fp_cycle rv _ res h
  case _ => exact op_branch_cycle rv _ res h
  case _ => exact op_jalr_cycle rv _ res h
  case _ => exact op_jal_cycle rv _ res h
  case _ => exact op_system_cycle rv _ res h
  case _ => exact absurd h (by simp)

/-- One unfolding of the run loop: loop condition false ⇒ return the state
with the normal-exit flag. -/
theorem rv_step_go_done (io : HostIO) (target : Nat) (rv : Hart)
    (h : ¬ (rv.csr_cycle < target ∧ rv.exception = rv_except_none)) :
    rv_step_go io target rv = some (rv, false) := by
  rw [rv_step_go.eq_def]
  simp [h]

/-- One unfolding of the run loop: a handler that returned false makes the
loop break out at once, flagging the break exit. -/
theorem rv_step_go_break (io : HostIO) (target : Nat) (rv : Hart)
    (h1 : rv.csr_cycle < target) (h2 : rv.exception = rv_except_none)
    (hr : (rv_exec1 io rv).map HRes.ret = some false) :
    rv_step_go io target rv = (rv_exec1 io rv).map (fun res => (res.rv, true)) := by
  rw [rv_step_go.eq_def, dif_pos (And.intro h1 h2)]
  cases he : rv_exec1 io rv with
  | none => rw [he] at hr; exact Option.noConfusion hr
  | some res =>
      rw [he] at hr
      have hret : res.ret = false := by simpa using hr
      simp [hret]

/-- One unfolding of the run loop: a handler that returned true is followed
by the cycle increment and the loop continues. -/
theorem rv_step_go_cont (io : HostIO) (target : Nat) (rv : Hart) (dflt : HRes)
    (h1 : rv.csr_cycle < target) (h2 : rv.exception = rv_except_none)
    (hr : (rv_exec1 io rv).map HRes.ret = some true) :
    rv_step_go io target rv
      = rv_step_go io target
          { ((rv_exec1 io rv).getD dflt).rv with csr_cycle := rv.csr_cycle + 1 } := by
  rw [rv_step_go.eq_def, dif_pos (And.intro h1 h2)]
  cases he : rv_exec1 io rv with
  | none => rw [he] at hr; exact Option.noConfusion hr
  | some res =>
      rw [he] at hr
      have hret : res.ret = true := by simpa using hr
      simp [hret]

/-- Any normal (non-break) exit of the run loop happens only with the budget
exhausted or the latch set; strong induction on the remaining budget. -/
theorem rv_step_go_exhausts_aux (n : Nat) :
    ∀ (io : HostIO) (target : Nat) (rv : Hart) (hb : Hart × Bool),
      target - rv.csr_cycle ≤ n → rv_step_go io target rv = some hb → hb.2 = false →
      target ≤ hb.1.csr_cycle ∨ ¬ hb.1.exception = rv_except_none := by
  induction n with
  | zero =>
      intro io target rv hb hn h _
      have hg : ¬ (rv.csr_cycle < target ∧ rv.exception = rv_except_none) := by
        intro hc
        omega
      rw [rv_step_go_done io target rv hg] at h
      injection h with h
      subst h
      left
      show target ≤ rv.csr_cycle
      omega
  | succ n ih =>
      intro io target rv hb hn h hf
      by_cases hg : rv.csr_cycle < target ∧ rv.exception = rv_except_none
      · rw [rv_step_go.eq_def, dif_pos hg] at h
        cases he : rv_exec1 io rv with
        | none => rw [he] at h; exact Option.noConfusion h
        | some res =>
            rw [he] at h
            dsimp only at h
            by_cases hr : res.ret
            · rw [if_pos hr] at h
              have hm : target - (rv.csr_cycle + 1) ≤ n := by omega
              exact ih io target _ hb hm h hf
            · rw [if_neg hr] at h
              injection h with h
              rw [← h] at hf
              simp at hf
      · rw [rv_step_go_done io target rv hg] at h
        injection h with h
        subst h
        dsimp only
        simp only [rv_except_none] at hg ⊢
        omega

/-- C2 (amended): in the run loop of rv_step, csr_cycle is incremented
exactly once per instruction whose handler returns true; when a handler
returns false (branch taken, jump, jalr) the loop BREAKS OUT immediately
without incrementing, so that instruction is not counted and a single taken
branch under step leaves csr_cycle unchanged. -/
theorem rv_step_cycle_accounting (io : HostIO) (target : Nat) (rv : Hart)
    (h1 : rv.csr_cycle < target) (h2 : rv.exception = rv_except_none) :
    match rv_exec1 io rv with
    | none => rv_step_go io target rv = none
    | some res =>
        (res.ret = true →
          rv_step_go io target rv
            = rv_step_go io target { res.rv with csr_cycle := rv.csr_cycle + 1 }
          ∧ res.rv.csr_cycle = rv.csr_cycle)
        ∧ (res.ret = false →
          rv_step_go io target rv = some (res.rv, true)
          ∧ res.rv.csr_cycle = rv.csr_cycle) := by
  cases he : rv_exec1 io rv with
  | none =>
      rw [rv_step_go.eq_def, dif_pos (And.intro h1 h2), he]
  | some res =>
      have hcy := rv_exec1_csr_cycle io rv res he
      refine And.intro (fun hr => And.intro ?_ hcy) (fun hr => And.intro ?_ hcy)
      · rw [rv_step_go.eq_def, dif_pos (And.intro h1 h2), he]
        simp [hr]
      · rw [rv_step_go.eq_def, dif_pos (And.intro h1 h2), he]
        simp [hr]

/-- Witness for the amended C2 theorem at a concrete input: a freshly reset
hart, a budget of 4 and a stream of taken branches. -/
theorem rv_step_cycle_accounting_witness :
    ((rv_reset hart0 0).csr_cycle < 4 ∧ (rv_reset hart0 0).exception = rv_except_none) ∧
    (match rv_exec1 ioBEQ (rv_reset hart0 0) with
     | none => rv_step_go ioBEQ 4 (rv_reset hart0 0) = none
     | some res =>
        (res.ret = true →
          rv_step_go ioBEQ 4 (rv_reset hart0 0)
            = rv_step_go ioBEQ 4 { res.rv with csr_cycle := (rv_reset hart0 0).csr_cycle + 1 }
          ∧ res.rv.csr_cycle = (rv_reset hart0 0).csr_cycle)
        ∧ (res.ret = false →
          rv_step_go ioBEQ 4 (rv_reset hart0 0) = some (res.rv, true)
          ∧ res.rv.csr_cycle = (rv_reset hart0 0).csr_cycle)) :=
  ⟨⟨by decide, by decide⟩,
   rv_step_cycle_accounting ioBEQ 4 (rv_reset hart0 0) (by decide) (by decide)⟩

/-- Counterexample to C2 as stated: from reset, one `rv_step` with budget 4
over a stream of taken `BEQ x0, x0, +8` branches executes a single taken
branch and returns with `csr_cycle = 0`, not 1 — the false-returning handler
is not counted. -/
theorem rv_step_taken_branch_cycle_counterexample :
    (rv_step ioBEQ (rv_reset hart0 0) 4).map Hart.csr_cycle = some 0 ∧
    ¬ (rv_step ioBEQ (rv_reset hart0 0) 4).map Hart.csr_cycle = some 1 := by
  have key := rv_step_go_break ioBEQ
      (((rv_reset hart0 0).csr_cycle + 4) % 18446744073709551616) (rv_reset hart0 0)
      (by decide) (by decide) (by decide)
  unfold rv_step
  rw [key]
  exact ⟨by decide, by decide⟩

/-- C3 (amended): when the run loop exits normally (not through the `break`
taken when a handler returns false), the cycle budget is exhausted or the
exception latch is set.  The loop can also return early through that break —
see the counterexample — so the flag hypothesis is necessary. -/
theorem rv_step_exit_condition (io : HostIO) (target : Nat) (rv : Hart) (hb : Hart × Bool)
    (h : rv_step_go io target rv = some hb) (hf : hb.2 = false) :
    target ≤ hb.1.csr_cycle ∨ ¬ hb.1.exception = rv_except_none :=
  rv_step_go_exhausts_aux (target - rv.csr_cycle) io target rv hb le_rfl h hf

/-- Counterexample to C3 as stated: the same single taken branch makes
`rv_step` return with the budget (4) not exhausted and the exception latch
still clear. -/
theorem rv_step_early_return_counterexample :
    (rv_step ioBEQ (rv_reset hart0 0) 4).map
        (fun h => decide (4 ≤ h.csr_cycle) || !(h.exception == rv_except_none))
      = some false := by
  have key := rv_step_go_break ioBEQ
      (((rv_reset hart0 0).csr_cycle + 4) % 18446744073709551616) (rv_reset hart0 0)
      (by decide) (by decide) (by decide)
  unfold rv_step
  rw [key]
  decide

/-- Witness for the amended C3 theorem at a concrete input: a NOP stream with
budget 1 runs one instruction, exits normally, and indeed has consumed its
whole budget with the latch clear. -/
theorem rv_step_exit_condition_witness :
    rv_step_go ioNOP 1 (rv_reset hart0 0)
        = some ((rv_step_go ioNOP 1 (rv_reset hart0 0)).getD (hart0, true)) ∧
    ((rv_step_go ioNOP 1 (rv_reset hart0 0)).getD (hart0, true)).2 = false ∧
    (1 ≤ ((rv_step_go ioNOP 1 (rv_reset hart0 0)).getD (hart0, true)).1.csr_cycle ∨
      ¬ ((rv_step_go ioNOP 1 (rv_reset hart0 0)).getD (hart0, true)).1.exception
          = rv_except_none) := by
  have key1 := rv_step_go_cont ioNOP 1 (rv_reset hart0 0) ⟨hart0, [], true⟩
      (by decide) (by decide) (by decide)
  have key2 := rv_step_go_done ioNOP 1
      { ((rv_exec1 ioNOP (rv_reset hart0 0)).getD ⟨hart0, [], true⟩).rv with
        csr_cycle := (rv_reset hart0 0).csr_cycle + 1 }
      (by intro hc; exact absurd hc.1 (by decide))
  have key : rv_step_go ioNOP 1 (rv_reset hart0 0)
      = some ({ ((rv_exec1 ioNOP (rv_reset hart0 0)).getD ⟨hart0, [], true⟩).rv with
                csr_cycle := (rv_reset hart0 0).csr_cycle + 1 }, false) := by
    rw [key1, key2]
  refine And.intro ?_ (And.intro ?_ ?_)
  · rw [key]
    rfl
  · rw [key]
    rfl
  · exact rv_step_exit_condition ioNOP 1 (rv_reset hart0 0) _ (by rw [key]; rfl) (by rw [key]; rfl)

/-- C1 fails on the code: `op_fp` (alone among the handlers that can write an
integer register) has no zero-register enforcement tail, so FMV.X.W with
`rd = x0` (encoding 0xE0008053: funct7 0b1110000, rm 0, rs1 = f1, rd = x0) on
a hart whose `f1` bits are 0x3F800000 completes with `X[0] = 0x3F800000`,
violating the `X[0] == 0` invariant the claim states. -/
theorem op_fp_x0_violation :
    (op_fp hartF 3758129235).map (fun r => r.rv.X 0) = some 1065353216 ∧
    ¬ (1065353216 : Nat) = 0 := by
  exact ⟨by decide, by decide⟩

/-- C4 fails on the code: AMOADD.W `rd=x7, rs1=x5, rs2=x6` (encoding
6464431 = 0x62A3AF) on a hart with `X[5] = 0x100`, `X[6] = 1` and a word-read
callback that returns `1000 + addr`: the handler reads from address 5 — the
register INDEX rs1, not `X[5] = 0x100` — loads `X[7] = 1005` from there, and
writes 1006 back through the HALF-WORD callback `mem_write_s` at address 5,
against the claim's `X[rs1]` address and `mem_write_w` path. -/
theorem op_amo_address_violation :
    (op_amo ioADDR hartAMO 6464431).map (fun r => (r.rv.X 7, r.evs))
      = some (1005, [HostEvent.read_w 5, HostEvent.write_s 5 1006]) ∧
    ¬ (5 : Nat) = 256 := by
  exact ⟨by decide, by decide⟩

/-- C5 fails on the code: 0x78000000 is a positive normal number (sign 0,
exponent field 0xF0 = 240, fraction 0), so FCLASS must produce the mask 0x40,
but `calc_fclass` guards its normal-number classes with
`expn < 0x78000000` instead of `expn < FMASK_EXPN` and produces the empty
mask 0. -/
theorem calc_fclass_normal_violation :
    calc_fclass 2013265920 = 0 ∧ ¬ (0 : Nat) = 64 := by
  exact ⟨by decide, by decide⟩

/-- C7: for every BRANCH instruction (well-formed funct3, i.e. the
`taken` switch does not assert): when taken, the new PC is the old PC plus
the B-type immediate, and the exception latch is set to
instruction-misaligned exactly when that PC has one of its low two bits set
(otherwise the latch is untouched); when not taken, PC advances by 4 and the
latch is never modified. -/
theorem op_branch_misalignment (rv : Hart) (inst : Nat) (tk : Bool)
    (ht : branch_taken rv inst = some tk) :
    (tk = true →
      (op_branch rv inst).map (fun r => (r.rv.PC, r.rv.exception))
        = some (toU32 ((rv.PC : Int) + dec_btype_imm inst),
            if ¬ toU32 ((rv.PC : Int) + dec_btype_imm inst) &&& 3 = 0
            then rv_except_inst_misaligned else rv.exception))
    ∧ (tk = false →
      (op_branch rv inst).map (fun r => (r.rv.PC, r.rv.exception))
        = some (trunc32 (rv.PC + 4), rv.exception)) := by
  constructor <;> intro h <;> subst h <;> simp [op_branch, ht]

/-- Witness for C7 at a concrete input: `BEQ x0, x0, +6` (encoding 867) at
PC = 0x1000 is taken to the misaligned address 0x1006. -/
theorem op_branch_misalignment_witness :
    branch_taken (rv_reset hart0 4096) 867 = some true ∧
    ((true = true →
      (op_branch (rv_reset hart0 4096) 867).map (fun r => (r.rv.PC, r.rv.exception))
        = some (toU32 (((rv_reset hart0 4096).PC : Int) + dec_btype_imm 867),
            if ¬ toU32 (((rv_reset hart0 4096).PC : Int) + dec_btype_imm 867) &&& 3 = 0
            then rv_except_inst_misaligned else (rv_reset hart0 4096).exception))
    ∧ (true = false →
      (op_branch (rv_reset hart0 4096) 867).map (fun r => (r.rv.PC, r.rv.exception))
        = some (trunc32 ((rv_reset hart0 4096).PC + 4), (rv_reset hart0 4096).exception))) :=
  ⟨by decide, op_branch_misalignment (rv_reset hart0 4096) 867 true (by decide)⟩

/-- C8: for every hart and in-range reset value p, rv_reset establishes
PC = p, X[sp] = DEFAULT_STACK_ADDR, every other register zero, csr_cycle = 0
and a clear exception latch. -/
theorem rv_reset_post (rv : Hart) (p : Nat) (hp : p < 4294967296) :
    (rv_reset rv p).PC = p ∧
    (rv_reset rv p).X rv_reg_sp = DEFAULT_STACK_ADDR ∧
    (∀ i, ¬ i = rv_reg_sp → (rv_reset rv p).X i = 0) ∧
    (rv_reset rv p).csr_cycle = 0 ∧
    (rv_reset rv p).exception = rv_except_none := by
  refine And.intro ?_ (And.intro ?_ (And.intro ?_ (And.intro rfl rfl)))
  · simp [rv_reset, trunc32, Nat.mod_eq_of_lt hp]
  · simp [rv_reset, updX, trunc32, DEFAULT_STACK_ADDR]
  · intro i hi
    simp [rv_reset, updX, hi]

/-- Witness for C8 at a concrete input: reset to PC 5 and look at `x7`. -/
theorem rv_reset_post_witness :
    (5 : Nat) < 4294967296 ∧ ¬ (7 : Nat) = rv_reg_sp ∧
    (rv_reset hart0 5).PC = 5 ∧
    (rv_reset hart0 5).X rv_reg_sp = DEFAULT_STACK_ADDR ∧
    (rv_reset hart0 5).X 7 = 0 ∧
    (rv_reset hart0 5).csr_cycle = 0 ∧
    (rv_reset hart0 5).exception = rv_except_none :=
  ⟨by decide, by decide,
   (rv_reset_post hart0 5 (by decide)).1,
   (rv_reset_post hart0 5 (by decide)).2.1,
   (rv_reset_post hart0 5 (by decide)).2.2.1 7 (by decide),
   (rv_reset_post hart0 5 (by decide)).2.2.2.1,
   (rv_reset_post hart0 5 (by decide)).2.2.2.2⟩

/-- C9: for every JALR with rd = rs1, the jump target is
`(X[rs1] + imm) & ~1` computed from the PRE-instruction value of X[rs1] — the
link write cannot affect it — and the link register (when rd is not x0)
receives old PC + 4. -/
theorem op_jalr_target_before_link (rv : Hart) (inst : Nat)
    (h : dec_rd inst = dec_rs1 inst) :
    (op_jalr rv inst).map (fun r => r.rv.PC)
      = some (toU32 ((rv.X (dec_rs1 inst) : Int) + dec_itype_imm inst) &&& 4294967294) ∧
    (¬ dec_rd inst = rv_reg_zero →
      (op_jalr rv inst).map (fun r => r.rv.X (dec_rd inst))
        = some (trunc32 (rv.PC + 4))) := by
  constructor
  · simp [op_jalr]
  · intro hrd
    simp [op_jalr, hrd, updX, trunc32]

/-- Witness for C9 at a concrete input: `JALR x1, 9(x1)` (encoding 9470183)
with `X[1] = 0x100`: the target is (0x100 + 9) & ~1 = 0x108 and x1 receives
PC + 4. -/
theorem op_jalr_target_before_link_witness :
    dec_rd 9470183 = dec_rs1 9470183 ∧ ¬ dec_rd 9470183 = rv_reg_zero ∧
    (op_jalr hartJ 9470183).map (fun r => r.rv.PC)
      = some (toU32 ((hartJ.X (dec_rs1 9470183) : Int) + dec_itype_imm 9470183) &&& 4294967294) ∧
    (op_jalr hartJ 9470183).map (fun r => r.rv.X (dec_rd 9470183))
      = some (trunc32 (hartJ.PC + 4)) :=
  ⟨by decide, by decide,
   (op_jalr_target_before_link hartJ 9470183 (by decide)).1,
   (op_jalr_target_before_link hartJ 9470183 (by decide)).2 (by decide)⟩

/-- C10: a STORE (well-formed funct3 ∈ {0,1,2}) leaves the whole integer
register file, the F registers, csr_cycle, csr_mstatus, csr_fcsr and the
exception latch unchanged; its only effects are exactly one memory-write
callback — byte, half or word by funct3, at `X[rs1] + imm(S)` with the datum
from `X[rs2]` truncated to the callback's width — and PC advancing by 4. -/
theorem op_store_frame (rv : Hart) (inst : Nat) (h3 : dec_funct3 inst < 3) :
    (op_store rv inst).map
        (fun r => (r.rv.X, r.rv.F, r.rv.csr_cycle, r.rv.csr_mstatus, r.rv.csr_fcsr,
                   r.rv.exception, r.rv.PC, r.evs, r.ret))
      = some (rv.X, rv.F, rv.csr_cycle, rv.csr_mstatus, rv.csr_fcsr, rv.exception,
          trunc32 (rv.PC + 4),
          [match dec_funct3 inst with
           | 0 => HostEvent.write_b (toU32 ((rv.X (dec_rs1 inst) : Int) + dec_stype_imm inst))
                    (trunc8 (rv.X (dec_rs2 inst)))
           | 1 => HostEvent.write_s (toU32 ((rv.X (dec_rs1 inst) : Int) + dec_stype_imm inst))
                    (trunc16 (rv.X (dec_rs2 inst)))
           | _ => HostEvent.write_w (toU32 ((rv.X (dec_rs1 inst) : Int) + dec_stype_imm inst))
                    (trunc32 (rv.X (dec_rs2 inst)))], true) := by
  rcases (by omega : dec_funct3 inst = 0 ∨ dec_funct3 inst = 1 ∨ dec_funct3 inst = 2)
    with h | h | h <;> simp [op_store, h]

/-- Witness for C10 at a concrete input: `SB x2, 3(x1)` (encoding 2130339)
with `X[1] = 0x100`, writing one byte at 0x103. -/
theorem op_store_frame_witness :
    dec_funct3 2130339 < 3 ∧
    (op_store hartJ 2130339).map
        (fun r => (r.rv.X, r.rv.F, r.rv.csr_cycle, r.rv.csr_mstatus, r.rv.csr_fcsr,
                   r.rv.exception, r.rv.PC, r.evs, r.ret))
      = some (hartJ.X, hartJ.F, hartJ.csr_cycle, hartJ.csr_mstatus, hartJ.csr_fcsr,
          hartJ.exception, trunc32 (hartJ.PC + 4),
          [match dec_funct3 2130339 with
           | 0 => HostEvent.write_b (toU32 ((hartJ.X (dec_rs1 2130339) : Int) + dec_stype_imm 2130339))
                    (trunc8 (hartJ.X (dec_rs2 2130339)))
           | 1 => HostEvent.write_s (toU32 ((hartJ.X (dec_rs1 2130339) : Int) + dec_stype_imm 2130339))
                    (trunc16 (hartJ.X (dec_rs2 2130339)))
           | _ => HostEvent.write_w (toU32 ((hartJ.X (dec_rs1 2130339) : Int) + dec_stype_imm 2130339))
                    (trunc32 (hartJ.X (dec_rs2 2130339)))], true) :=
  ⟨by decide, op_store_frame hartJ 2130339 (by decide)⟩

/-- The signed view hits `INT32_MIN` exactly on the pattern 0x80000000. -/
theorem sext32_eq_int_min (a : Nat) (h : a < 4294967296) :
    sext32 a = -2147483648 ↔ a = 2147483648 := by
  unfold sext32; split <;> omega

/-- `toU32` lands in the 32-bit range. -/
theorem toU32_lt (q : Int) : toU32 q < 4294967296 := by
  unfold toU32; omega

/-- A stored `toU32` value is already truncated. -/
theorem trunc32_toU32 (q : Int) : trunc32 (toU32 q) = toU32 q := by
  unfold trunc32 toU32; omega

/-- C's truncating division of in-range `int32_t` values stays in range once
the divide-by-zero and `INT32_MIN / -1` cases are excluded. -/
theorem tdiv_int32_bounds (A B : Int)
    (hA1 : -2147483648 ≤ A) (hA2 : A < 2147483648)
    (hB1 : -2147483648 ≤ B) (hB2 : B < 2147483648)
    (hB0 : ¬ B = 0) (hover : ¬ (B = -1 ∧ A = -2147483648)) :
    -2147483648 ≤ A.tdiv B ∧ A.tdiv B < 2147483648 := by
  by_cases h1 : B = 1
  · subst h1
    rw [Int.tdiv_one]
    exact ⟨hA1, hA2⟩
  · by_cases h2 : B = -1
    · subst h2
      have hA : ¬ A = -2147483648 := fun hA => hover ⟨rfl, hA⟩
      have hneg : A.tdiv (-1) = -A := by
        have h3 := Int.tdiv_neg A 1
        rw [Int.tdiv_one] at h3
        simpa using h3
      rw [hneg]
      omega
    · have hnB : 2 ≤ B.natAbs := by omega
      have hq : (A.tdiv B).natAbs = A.natAbs / B.natAbs := Int.natAbs_tdiv A B
      have hlt : A.natAbs < B.natAbs * 2147483648 := by
        have h4 : (2 : Nat) * 2147483648 ≤ B.natAbs * 2147483648 :=
          Nat.mul_le_mul_right _ hnB
        omega
      have hdiv : A.natAbs / B.natAbs < 2147483648 := Nat.div_lt_of_lt_mul hlt
      have h5 : (A.tdiv B).natAbs < 2147483648 := by rw [hq]; exact hdiv
      omega

/-- C's truncating remainder of in-range `int32_t` values stays (strictly) in
range whenever the divisor is nonzero. -/
theorem tmod_int32_bounds (A B : Int)
    (hB1 : -2147483648 ≤ B) (hB2 : B < 2147483648) (hB0 : ¬ B = 0) :
    -2147483648 < A.tmod B ∧ A.tmod B < 2147483648 := by
  have h1 : (A.tmod B).natAbs = A.natAbs % B.natAbs := natAbs_tmod A B
  have h2 : A.natAbs % B.natAbs < B.natAbs := Nat.mod_lt _ (by omega)
  omega

/-- Reading back the register a `wbX` writeback stored (destination not x0):
the stored value, truncated. -/
theorem op_op_map_wbX (rv : Hart) (rd v : Nat) (hrd : ¬ rd = rv_reg_zero) :
    (some (wbX rv rd v [])).map (fun r => r.rv.X rd) = some (trunc32 v) := by
  simp [wbX, enforceZero, updX, hrd]

/-- The signed view of the register a `wbX` writeback stored. -/
theorem op_op_map_wbX_sext (rv : Hart) (rd v : Nat) (hrd : ¬ rd = rv_reg_zero) :
    (some (wbX rv rd v [])).map (fun r => sext32 (r.rv.X rd)) = some (sext32 (trunc32 v)) := by
  simp [wbX, enforceZero, updX, hrd]

/-- C6: the RV32M division/remainder semantics of op_op.  Writing
a = X[rs1], b = X[rs2] (32-bit patterns) and A = sext32 a, B = sext32 b:
DIV with b = 0 yields 0xFFFFFFFF; DIV of 0x80000000 by 0xFFFFFFFF yields
0x80000000; DIVU with b = 0 yields 0xFFFFFFFF; REM with b = 0 yields a and
the signed-overflow case yields 0; REMU with b = 0 yields a; in all other
cases DIV/REM are C's truncating division `Int.tdiv`/`Int.tmod` (remainder
carrying the sign of the dividend) and DIVU/REMU are the unsigned truncating
division and remainder. -/
theorem op_op_div_rem_edge_cases (rv : Hart) (inst : Nat)
    (h7 : dec_funct7 inst = 1) (hrd : ¬ dec_rd inst = rv_reg_zero)
    (ha : rv.X (dec_rs1 inst) < 4294967296) (hb : rv.X (dec_rs2 inst) < 4294967296) :
    (dec_funct3 inst = 4 → rv.X (dec_rs2 inst) = 0 →
      (op_op rv inst).map (fun r => r.rv.X (dec_rd inst)) = some 4294967295) ∧
    (dec_funct3 inst = 4 → rv.X (dec_rs2 inst) = 4294967295 →
      rv.X (dec_rs1 inst) = 2147483648 →
      (op_op rv inst).map (fun r => r.rv.X (dec_rd inst)) = some 2147483648) ∧
    (dec_funct3 inst = 4 → ¬ rv.X (dec_rs2 inst) = 0 →
      ¬ (rv.X (dec_rs2 inst) = 4294967295 ∧ rv.X (dec_rs1 inst) = 2147483648) →
      (op_op rv inst).map (fun r => sext32 (r.rv.X (dec_rd inst)))
        = some (Int.tdiv (sext32 (rv.X (dec_rs1 inst))) (sext32 (rv.X (dec_rs2 inst))))) ∧
    (dec_funct3 inst = 5 → rv.X (dec_rs2 inst) = 0 →
      (op_op rv inst).map (fun r => r.rv.X (dec_rd inst)) = some 4294967295) ∧
    (dec_funct3 inst = 5 → ¬ rv.X (dec_rs2 inst) = 0 →
      (op_op rv inst).map (fun r => r.rv.X (dec_rd inst))
        = some (rv.X (dec_rs1 inst) / rv.X (dec_rs2 inst))) ∧
    (dec_funct3 inst = 6 → rv.X (dec_rs2 inst) = 0 →
      (op_op rv inst).map (fun r => r.rv.X (dec_rd inst)) = some (rv.X (dec_rs1 inst))) ∧
    (dec_funct3 inst = 6 → rv.X (dec_rs2 inst) = 4294967295 →
      rv.X (dec_rs1 inst) = 2147483648 →
      (op_op rv inst).map (fun r => r.rv.X (dec_rd inst)) = some 0) ∧
    (dec_funct3 inst = 6 → ¬ rv.X (dec_rs2 inst) = 0 →
      ¬ (rv.X (dec_rs2 inst) = 4294967295 ∧ rv.X (dec_rs1 inst) = 2147483648) →
      (op_op rv inst).map (fun r => sext32 (r.rv.X (dec_rd inst)))
        = some (Int.tmod (sext32 (rv.X (dec_rs1 inst))) (sext32 (rv.X (dec_rs2 inst))))
      ∧ (0 ≤ sext32 (rv.X (dec_rs1 inst)) →
          0 ≤ Int.tmod (sext32 (rv.X (dec_rs1 inst))) (sext32 (rv.X (dec_rs2 inst))))
      ∧ (sext32 (rv.X (dec_rs1 inst)) ≤ 0 →
          Int.tmod (sext32 (rv.X (dec_rs1 inst))) (sext32 (rv.X (dec_rs2 inst))) ≤ 0)) ∧
    (dec_funct3 inst = 7 → rv.X (dec_rs2 inst) = 0 →
      (op_op rv inst).map (fun r => r.rv.X (dec_rd inst)) = some (rv.X (dec_rs1 inst))) ∧
    (dec_funct3 inst = 7 → ¬ rv.X (dec_rs2 inst) = 0 →
      (op_op rv inst).map (fun r => r.rv.X (dec_rd inst))
        = some (rv.X (dec_rs1 inst) % rv.X (dec_rs2 inst))) := by
  refine ⟨?_, ?_, ?_, ?_, ?_, ?_, ?_, ?_, ?_, ?_⟩
  · -- DIV, divisor zero
    intro h3 hb0
    simp only [op_op]
    rw [h7, h3]
    dsimp only
    rw [if_pos ((sext32_eq_zero _ hb).mpr hb0)]
    rw [op_op_map_wbX _ _ _ hrd]
    decide
  · -- DIV, signed overflow
    intro h3 hb1 ha1
    have hsb : sext32 (rv.X (dec_rs2 inst)) = -1 := (sext32_eq_neg_one _ hb).mpr hb1
    simp only [op_op]
    rw [h7, h3]
    dsimp only
    rw [if_neg (by rw [hsb]; decide), if_pos (And.intro hsb ha1)]
    rw [op_op_map_wbX _ _ _ hrd, ha1]
    decide
  · -- DIV, general case: truncating division
    intro h3 hb0 hno
    have hA := sext32_bounds _ ha
    have hB := sext32_bounds _ hb
    have hB0 : ¬ sext32 (rv.X (dec_rs2 inst)) = 0 :=
      fun hc => hb0 ((sext32_eq_zero _ hb).mp hc)
    have hover : ¬ (sext32 (rv.X (dec_rs2 inst)) = -1 ∧ rv.X (dec_rs1 inst) = 2147483648) :=
      fun hc => hno (And.intro ((sext32_eq_neg_one _ hb).mp hc.1) hc.2)
    have hq := tdiv_int32_bounds _ _ hA.1 hA.2 hB.1 hB.2 hB0
      (fun hc => hover (And.intro hc.1 ((sext32_eq_int_min _ ha).mp hc.2)))
    simp only [op_op]
    rw [h7, h3]
    dsimp only
    rw [if_neg hB0, if_neg hover]
    rw [op_op_map_wbX_sext _ _ _ hrd, trunc32_toU32, sext32_toU32 _ hq.1 hq.2]
  · -- DIVU, divisor zero
    intro h3 hb0
    simp only [op_op]
    rw [h7, h3]
    dsimp only
    rw [if_pos hb0]
    rw [op_op_map_wbX _ _ _ hrd]
    decide
  · -- DIVU, general case
    intro h3 hb0
    simp only [op_op]
    rw [h7, h3]
    dsimp only
    rw [if_neg hb0]
    rw [op_op_map_wbX _ _ _ hrd]
    have h4 := Nat.div_le_self (rv.X (dec_rs1 inst)) (rv.X (dec_rs2 inst))
    simp only [trunc32]
    rw [Nat.mod_eq_of_lt (by omega)]
  · -- REM, divisor zero
    intro h3 hb0
    simp only [op_op]
    rw [h7, h3]
    dsimp only
    rw [if_pos ((sext32_eq_zero _ hb).mpr hb0)]
    rw [op_op_map_wbX _ _ _ hrd, trunc32_toU32, toU32_sext32 _ ha]
  · -- REM, signed overflow
    intro h3 hb1 ha1
    have hsb : sext32 (rv.X (dec_rs2 inst)) = -1 := (sext32_eq_neg_one _ hb).mpr hb1
    simp only [op_op]
    rw [h7, h3]
    dsimp only
    rw [if_neg (by rw [hsb]; decide), if_pos (And.intro hsb ha1)]
    rw [op_op_map_wbX _ _ _ hrd]
    decide
  · -- REM, general case: truncating remainder, sign of the dividend
    intro h3 hb0 hno
    have hA := sext32_bounds _ ha
    have hB := sext32_bounds _ hb
    have hB0 : ¬ sext32 (rv.X (dec_rs2 inst)) = 0 :=
      fun hc => hb0 ((sext32_eq_zero _ hb).mp hc)
    have hover : ¬ (sext32 (rv.X (dec_rs2 inst)) = -1 ∧ rv.X (dec_rs1 inst) = 2147483648) :=
      fun hc => hno (And.intro ((sext32_eq_neg_one _ hb).mp hc.1) hc.2)
    have hq := tmod_int32_bounds (sext32 (rv.X (dec_rs1 inst))) _ hB.1 hB.2 hB0
    refine And.intro ?_ (And.intro ?_ ?_)
    · simp only [op_op]
      rw [h7, h3]
      dsimp only
      rw [if_neg hB0, if_neg hover]
      rw [op_op_map_wbX_sext _ _ _ hrd, trunc32_toU32,
          sext32_toU32 _ (by omega) (by omega)]
    · exact fun hx => Int.tmod_nonneg _ hx
    · exact fun hx => tmod_nonpos_of_nonpos _ _ hx
  · -- REMU, divisor zero
    intro h3 hb0
    simp only [op_op]
    rw [h7, h3]
    dsimp only
    rw [if_pos hb0]
    rw [op_op_map_wbX _ _ _ hrd]
    simp only [trunc32]
    rw [Nat.mod_eq_of_lt ha]
  · -- REMU, general case
    intro h3 hb0
    simp only [op_op]
    rw [h7, h3]
    dsimp only
    rw [if_neg hb0]
    rw [op_op_map_wbX _ _ _ hrd]
    have h4 := Nat.mod_le (rv.X (dec_rs1 inst)) (rv.X (dec_rs2 inst))
    simp only [trunc32]
    rw [Nat.mod_eq_of_lt (by omega)]

/-- Witness for C6 at a concrete input: `DIVU x3, x1, x2`
(encoding 35705267) with `X[1] = 42`, `X[2] = 0`. -/
theorem op_op_div_rem_edge_cases_witness :
    dec_funct7 35705267 = 1 ∧ ¬ dec_rd 35705267 = rv_reg_zero ∧
    hartDIV.X (dec_rs1 35705267) < 4294967296 ∧ hartDIV.X (dec_rs2 35705267) < 4294967296 ∧
    (dec_funct3 35705267 = 4 → hartDIV.X (dec_rs2 35705267) = 0 →
      (op_op hartDIV 35705267).map (fun r => r.rv.X (dec_rd 35705267)) = some 4294967295) ∧
    (dec_funct3 35705267 = 4 → hartDIV.X (dec_rs2 35705267) = 4294967295 →
      hartDIV.X (dec_rs1 35705267) = 2147483648 →
      (op_op hartDIV 35705267).map (fun r => r.rv.X (dec_rd 35705267)) = some 2147483648) ∧
    (dec_funct3 35705267 = 4 → ¬ hartDIV.X (dec_rs2 35705267) = 0 →
      ¬ (hartDIV.X (dec_rs2 35705267) = 4294967295 ∧ hartDIV.X (dec_rs1 35705267) = 2147483648) →
      (op_op hartDIV 35705267).map (fun r => sext32 (r.rv.X (dec_rd 35705267)))
        = some (Int.tdiv (sext32 (hartDIV.X (dec_rs1 35705267))) (sext32 (hartDIV.X (dec_rs2 35705267))))) ∧
    (dec_funct3 35705267 = 5 → hartDIV.X (dec_rs2 35705267) = 0 →
      (op_op hartDIV 35705267).map (fun r => r.rv.X (dec_rd 35705267)) = some 4294967295) ∧
    (dec_funct3 35705267 = 5 → ¬ hartDIV.X (dec_rs2 35705267) = 0 →
      (op_op hartDIV 35705267).map (fun r => r.rv.X (dec_rd 35705267))
        = some (hartDIV.X (dec_rs1 35705267) / hartDIV.X (dec_rs2 35705267))) ∧
    (dec_funct3 35705267 = 6 → hartDIV.X (dec_rs2 35705267) = 0 →
      (op_op hartDIV 35705267).map (fun r => r.rv.X (dec_rd 35705267)) = some (hartDIV.X (dec_rs1 35705267))) ∧
    (dec_funct3 35705267 = 6 → hartDIV.X (dec_rs2 35705267) = 4294967295 →
      hartDIV.X (dec_rs1 35705267) = 2147483648 →
      (op_op hartDIV 35705267).map (fun r => r.rv.X (dec_rd 35705267)) = some 0) ∧
    (dec_funct3 35705267 = 6 → ¬ hartDIV.X (dec_rs2 35705267) = 0 →
      ¬ (hartDIV.X (dec_rs2 35705267) = 4294967295 ∧ hartDIV.X (dec_rs1 35705267) = 2147483648) →
      (op_op hartDIV 35705267).map (fun r => sext32 (r.rv.X (dec_rd 35705267)))
        = some (Int.tmod (sext32 (hartDIV.X (dec_rs1 35705267))) (sext32 (hartDIV.X (dec_rs2 35705267))))
      ∧ (0 ≤ sext32 (hartDIV.X (dec_rs1 35705267)) →
          0 ≤ Int.tmod (sext32 (hartDIV.X (dec_rs1 35705267))) (sext32 (hartDIV.X (dec_rs2 35705267))))
      ∧ (sext32 (hartDIV.X (dec_rs1 35705267)) ≤ 0 →
          Int.tmod (sext32 (hartDIV.X (dec_rs1 35705267))) (sext32 (hartDIV.X (dec_rs2 35705267))) ≤ 0)) ∧
    (dec_funct3 35705267 = 7 → hartDIV.X (dec_rs2 35705267) = 0 →
      (op_op hartDIV 35705267).map (fun r => r.rv.X (dec_rd 35705267)) = some (hartDIV.X (dec_rs1 35705267))) ∧
    (dec_funct3 35705267 = 7 → ¬ hartDIV.X (dec_rs2 35705267) = 0 →
      (op_op hartDIV 35705267).map (fun r => r.rv.X (dec_rd 35705267))
        = some (hartDIV.X (dec_rs1 35705267) % hartDIV.X (dec_rs2 35705267))) :=
  ⟨by decide, by decide, by decide, by decide,
   op_op_div_rem_edge_cases hartDIV 35705267 (by decide) (by decide) (by decide) (by decide)⟩

end RiscvVM
